import Mathlib

/-!
# Verification of the N.E.S.T collaboration-network graph (network_graph.js)

A shallow embedding of `src/app/static/js/network_graph.js` (D3 v7 force-directed
graph): visual-encoding scales, the archetype color table, the filter/highlight
engine, the drag handlers, the tooltip clamping and the render entry point.
JavaScript numbers are modelled as rationals; JavaScript strings as Lean strings
whose operations are spelled out on the underlying character lists.
-/

namespace Nest

/-! ## JavaScript string primitives -/

/-- Character-wise lowercasing, as `String.prototype.toLowerCase` acts on the
name and search strings used by this program. -/
def jsToLower (s : String) : String := ⟨s.data.map Char.toLower⟩

/-- `needle` occurs at the start of `hay` (character lists). -/
def startsWithCL : List Char → List Char → Bool
  | [], _ => true
  | _ :: _, [] => false
  | a :: as, b :: bs => a = b && startsWithCL as bs

/-- `needle` occurs somewhere inside `hay` (character lists). -/
def includesCL (needle : List Char) : List Char → Bool
  | [] => startsWithCL needle []
  | b :: bs => startsWithCL needle (b :: bs) || includesCL needle bs

/-- `hay.includes(needle)` of JavaScript. -/
def jsIncludes (hay needle : String) : Bool := includesCL needle.data hay.data

theorem jsToLower_eq_empty_iff (s : String) : jsToLower s = "" ↔ s = "" := by
  cases s with
  | mk d =>
    cases d with
    | nil => simp [jsToLower]
    | cons c cs =>
      constructor
      · intro h
        have : (Char.toLower c :: cs.map Char.toLower) = ([] : List Char) :=
          congrArg String.data h
        exact absurd this (by simp)
      · intro h
        have : (c :: cs) = ([] : List Char) := congrArg String.data h
        exact absurd this (by simp)

/-! ## Data model (§3 of the spec, fields as consumed by network_graph.js) -/

/-- A person node of the loaded graph.  `archetype` is `Option` so that a
payload with the field missing (`undefined` in JavaScript) is representable. -/
structure Node where
  id : Nat
  name : String
  department : String
  archetype : Option String
  capabilities : List String
  capability_count : Nat
  collab_count : ℚ
deriving Repr, DecidableEq

/-- A collaboration link of the loaded graph (ids at input time). -/
structure Link where
  source : Nat
  target : Nat
  weight : ℚ
deriving Repr, DecidableEq

/-- The loaded graph. -/
structure Graph where
  nodes : List Node
  links : List Link
deriving Repr, DecidableEq

/-! ## Filter engine (`applyFilters`, lines 259–290) -/

/-- The three filter inputs read at the top of `applyFilters`:
`searchInput.value`, `filterDept.value`, `filterArch.value`.  The "Any"
dropdown options carry the empty string as value. -/
structure FilterState where
  search : String
  dept : String
  arch : String
deriving Repr, DecidableEq

/-- `const searchTerm = searchInput.value.toLowerCase()`. -/
def searchTermOf (fs : FilterState) : String := jsToLower fs.search

/-- `const matchSearch = !searchTerm || d.name.toLowerCase().includes(searchTerm)`. -/
def matchSearch (fs : FilterState) (d : Node) : Bool :=
  searchTermOf fs = "" || jsIncludes (jsToLower d.name) (searchTermOf fs)

/-- `const matchDept = !dept || d.department === dept`. -/
def matchDept (fs : FilterState) (d : Node) : Bool :=
  fs.dept = "" || d.department = fs.dept

/-- `const matchArch = !arch || d.archetype === arch`; a missing archetype is
strictly unequal to every selector string. -/
def matchArch (fs : FilterState) (d : Node) : Bool :=
  fs.arch = "" || d.archetype = some fs.arch

/-- `const visible = matchSearch && matchDept && matchArch`. -/
def visible (fs : FilterState) (d : Node) : Bool :=
  matchSearch fs d && matchDept fs d && matchArch fs d

/-- `g.transition()...attr("opacity", visible ? 1 : .08)`. -/
def nodeOpacity (fs : FilterState) (d : Node) : ℚ :=
  if visible fs d then 1 else 8/100

/-- `if (searchTerm && d.name.toLowerCase().includes(searchTerm))`:
the highlight condition, independent of the two dropdowns. -/
def highlighted (fs : FilterState) (d : Node) : Bool :=
  !(searchTermOf fs = "") && jsIncludes (jsToLower d.name) (searchTermOf fs)

/-- The ring attributes set by `applyFilters` on the first circle. -/
structure RingStyle where
  strokeOpacity : ℚ
  strokeWidth : ℚ
deriving Repr, DecidableEq

/-- Emphasized: `stroke-opacity 1, stroke-width 4`; baseline:
`stroke-opacity .3, stroke-width 2`. -/
def ringStyle (fs : FilterState) (d : Node) : RingStyle :=
  if highlighted fs d then ⟨1, 4⟩ else ⟨3/10, 2⟩

/-- The visibility predicate in the words of the specification: search term
empty or a case-insensitive substring of the name, department empty or an
exact match, archetype empty or an exact match. -/
def specVisible (fs : FilterState) (d : Node) : Prop :=
  (fs.search = "" ∨ jsIncludes (jsToLower d.name) (jsToLower fs.search) = true) ∧
  (fs.dept = "" ∨ d.department = fs.dept) ∧
  (fs.arch = "" ∨ d.archetype = some fs.arch)

theorem highlighted_iff (fs : FilterState) (d : Node) :
    highlighted fs d = true ↔
      fs.search ≠ "" ∧ jsIncludes (jsToLower d.name) (jsToLower fs.search) = true := by
  simp [highlighted, searchTermOf, jsToLower_eq_empty_iff]

/-- C1: a node's computed visibility is the AND of the three spec predicates
(search empty or case-insensitive substring of the name; department empty or
exact match; archetype empty or exact match), and the node is rendered at
opacity 1 exactly when visible and at opacity 0.08 exactly when not. -/
theorem claim_C1_filter_visibility (fs : FilterState) (d : Node) :
    (visible fs d = true ↔ specVisible fs d) ∧
    (nodeOpacity fs d = 1 ↔ visible fs d = true) ∧
    (nodeOpacity fs d = 8/100 ↔ visible fs d = false) := by
  refine ⟨?_, ?_, ?_⟩
  · simp [visible, matchSearch, matchDept, matchArch, specVisible, searchTermOf,
      jsToLower_eq_empty_iff, and_assoc]
  · unfold nodeOpacity
    by_cases h : visible fs d
    · simp [h]
    · simp [h]
      norm_num
  · unfold nodeOpacity
    by_cases h : visible fs d
    · simp [h]
      norm_num
    · simp [h]

/-- C2: exactly the nodes whose name case-insensitively contains the non-empty
search term get the emphasized ring (opacity 1, width 4); every other node,
and every node under an empty search term, gets the baseline ring (opacity
0.3, width 2); the two dropdown filters play no role in the ring style. -/
theorem claim_C2_search_highlight (fs : FilterState) (d : Node) :
    (ringStyle fs d = ⟨1, 4⟩ ↔
      fs.search ≠ "" ∧ jsIncludes (jsToLower d.name) (jsToLower fs.search) = true) ∧
    (ringStyle fs d = ⟨3/10, 2⟩ ↔
      ¬(fs.search ≠ "" ∧ jsIncludes (jsToLower d.name) (jsToLower fs.search) = true)) ∧
    (∀ dept arch : String, ringStyle ⟨fs.search, dept, arch⟩ d = ringStyle fs d) := by
  have hne : (⟨1, 4⟩ : RingStyle) ≠ ⟨3/10, 2⟩ := by
    intro h
    exact absurd (congrArg RingStyle.strokeOpacity h) (by norm_num)
  refine ⟨?_, ?_, fun dept arch => rfl⟩
  · rw [← highlighted_iff]
    unfold ringStyle
    by_cases h : highlighted fs d <;> simp [h, hne]
  · rw [← highlighted_iff]
    unfold ringStyle
    by_cases h : highlighted fs d <;> simp [h, hne, Ne.symm hne]

/-! ## Visual encoding scales (lines 82–90) -/

/-- `d3.scaleLinear().domain([d0, d1]).range([r0, r1])` applied to `x`:
the range endpoints interpolated at `(x - d0) / (d1 - d0)`, unclamped; a
degenerate (zero-width) domain maps every input to the range midpoint. -/
def scaleLinear (d0 d1 r0 r1 x : ℚ) : ℚ :=
  if d1 - d0 = 0 then r0 + 1/2 * (r1 - r0)
  else r0 + (x - d0) / (d1 - d0) * (r1 - r0)

/-- `d3.max` over the mapped values: `undefined` (`none`) on an empty list,
otherwise the greatest element. -/
def d3max : List ℚ → Option ℚ
  | [] => none
  | x :: xs => some (xs.foldl max x)

/-- `v || 1` of JavaScript on a possibly-undefined number (`0` is falsy). -/
def jsOr1 : Option ℚ → ℚ
  | none => 1
  | some x => if x = 0 then 1 else x

/-- `const maxCollab = d3.max(nodes, d => d.collab_count) || 1`. -/
def maxCollab (nodes : List Node) : ℚ :=
  jsOr1 (d3max (nodes.map Node.collab_count))

/-- `const nodeRadius = d3.scaleLinear().domain([0, maxCollab]).range([6, 22])`. -/
def nodeRadius (nodes : List Node) (c : ℚ) : ℚ :=
  scaleLinear 0 (maxCollab nodes) 6 22 c

/-- `const maxWeight = d3.max(links, d => d.weight) || 1`. -/
def maxWeight (links : List Link) : ℚ :=
  jsOr1 (d3max (links.map Link.weight))

/-- `const linkWidth = d3.scaleLinear().domain([1, maxWeight]).range([1.5, 6])`. -/
def linkWidth (links : List Link) (w : ℚ) : ℚ :=
  scaleLinear 1 (maxWeight links) (3/2) 6 w

theorem foldl_max_init_le (acc : ℚ) (l : List ℚ) : acc ≤ l.foldl max acc := by
  induction l generalizing acc with
  | nil => exact le_refl acc
  | cons x xs ih => exact le_trans (le_max_left acc x) (ih (max acc x))

theorem jsOr1_ne_zero (v : Option ℚ) : jsOr1 v ≠ 0 := by
  cases v with
  | none => exact one_ne_zero
  | some x =>
    by_cases h : x = 0
    · simp [jsOr1, h]
    · simp [jsOr1, h]

theorem jsOr1_d3max_pos (l : List ℚ) (h : ∀ x ∈ l, 0 ≤ x) : 0 < jsOr1 (d3max l) := by
  cases l with
  | nil => exact one_pos
  | cons x xs =>
    have hx : 0 ≤ x := h x (List.mem_cons_self x xs)
    have hm : x ≤ xs.foldl max x := foldl_max_init_le x xs
    by_cases h0 : xs.foldl max x = 0
    · simp [d3max, jsOr1, h0]
    · simp only [d3max, jsOr1, if_neg h0]
      exact lt_of_le_of_ne (le_trans hx hm) (Ne.symm h0)

theorem jsOr1_d3max_ge_one (l : List ℚ) (h : ∀ x ∈ l, 1 ≤ x) : 1 ≤ jsOr1 (d3max l) := by
  cases l with
  | nil => exact le_refl 1
  | cons x xs =>
    have hx : 1 ≤ x := h x (List.mem_cons_self x xs)
    have hm : x ≤ xs.foldl max x := foldl_max_init_le x xs
    by_cases h0 : xs.foldl max x = 0
    · simp [d3max, jsOr1, h0]
    · simp only [d3max, jsOr1, if_neg h0]
      exact le_trans hx hm

/-- An unclamped 2-point linear scale with a non-inverted domain and range is
monotone non-decreasing (constant when the domain is degenerate). -/
theorem scaleLinear_mono (d0 d1 r0 r1 : ℚ) (hd : d0 ≤ d1) (hr : r0 ≤ r1)
    {x1 x2 : ℚ} (h : x1 ≤ x2) :
    scaleLinear d0 d1 r0 r1 x1 ≤ scaleLinear d0 d1 r0 r1 x2 := by
  unfold scaleLinear
  by_cases h0 : d1 - d0 = 0
  · rw [if_pos h0, if_pos h0]
  · rw [if_neg h0, if_neg h0]
    have hlt : 0 < d1 - d0 := lt_of_le_of_ne (by linarith) (Ne.symm h0)
    have h1 : (x1 - d0) / (d1 - d0) ≤ (x2 - d0) / (d1 - d0) := by
      apply div_le_div_of_nonneg_right ?_ hlt.le
      · linarith
    have h2 : (0 : ℚ) ≤ r1 - r0 := by linarith
    nlinarith [mul_le_mul_of_nonneg_right h1 h2]

/-- The radius-scale domain bound in the words of claim C3: the maximum
`collab_count`, or 1 if the graph has at most one distinct `collab_count`
value.  Stated from the claim for comparison with `maxCollab`. -/
def specClaimRadiusDomainMax (nodes : List Node) : ℚ :=
  if (nodes.map Node.collab_count).dedup.length ≤ 1 then 1
  else (d3max (nodes.map Node.collab_count)).getD 1

/-- The amended domain bound: the maximum `collab_count`, or 1 when that
maximum is 0 (for non-negative counts: when every count is 0) or the node
list is empty. -/
def amendedRadiusDomainMax (nodes : List Node) : ℚ :=
  match d3max (nodes.map Node.collab_count) with
  | none => 1
  | some m => if m = 0 then 1 else m

/-- The example graph of §8 of the spec. -/
def adaNode : Node :=
  ⟨1, "Ada Lovelace", "Engineering", some "Builder", ["Python"], 1, 5⟩

/-- The example graph of §8 of the spec, second node (collab_count 0). -/
def alanNode : Node :=
  ⟨2, "Alan Turing", "Research", some "Researcher", [], 0, 0⟩

/-- The example node list of §8 of the spec. -/
def exampleNodes : List Node := [adaNode, alanNode]

/-- The example link list of §8 of the spec. -/
def exampleLinks : List Link := [⟨1, 2, 2⟩]

/-- C3 counterexample: a single node with `collab_count` 4.  The graph has one
distinct `collab_count` value, so the claim's domain bound is 1, but the code
computes `max || 1 = 4`; the rendered radius is 22, while the claim's linear
function gives 70. -/
theorem claim_C3_counterexample :
    specClaimRadiusDomainMax [⟨2, "Alan Turing", "Research", some "Researcher", [], 0, 4⟩] = 1 ∧
    maxCollab [⟨2, "Alan Turing", "Research", some "Researcher", [], 0, 4⟩] = 4 ∧
    nodeRadius [⟨2, "Alan Turing", "Research", some "Researcher", [], 0, 4⟩] 4 = 22 ∧
    scaleLinear 0
      (specClaimRadiusDomainMax [⟨2, "Alan Turing", "Research", some "Researcher", [], 0, 4⟩])
      6 22 4 = 70 ∧
    (22 : ℚ) ≠ 70 := by
  refine ⟨?_, ?_, ?_, ?_, ?_⟩ <;>
    norm_num [specClaimRadiusDomainMax, maxCollab, nodeRadius, scaleLinear, d3max, jsOr1,
      List.dedup]

/-- C3 amended: the radius scale is linear from `[0, m]` to `[6, 22]` where
`m` is the maximum `collab_count`, or 1 when that maximum is 0; the link
width scale is linear from `[1, max(weight) or 1]` to `[1.5, 6]`; a node with
`collab_count` 0 is rendered at the minimum radius 6, and the domain maximum
at radius 22. -/
theorem claim_C3_amended_scales (g : Graph) (_hne : g.nodes ≠ [])
    (_hc : ∀ n ∈ g.nodes, 0 ≤ n.collab_count) :
    maxCollab g.nodes = amendedRadiusDomainMax g.nodes ∧
    (∀ c : ℚ, nodeRadius g.nodes c = scaleLinear 0 (amendedRadiusDomainMax g.nodes) 6 22 c) ∧
    nodeRadius g.nodes 0 = 6 ∧
    nodeRadius g.nodes (maxCollab g.nodes) = 22 ∧
    (∀ w : ℚ, linkWidth g.links w = scaleLinear 1 (maxWeight g.links) (3/2) 6 w) := by
  have hm : maxCollab g.nodes = amendedRadiusDomainMax g.nodes := by
    unfold maxCollab amendedRadiusDomainMax jsOr1
    cases d3max (g.nodes.map Node.collab_count) <;> rfl
  have hnz : maxCollab g.nodes ≠ 0 := jsOr1_ne_zero _
  refine ⟨hm, fun c => by rw [nodeRadius, hm], ?_, ?_, fun w => rfl⟩
  · unfold nodeRadius scaleLinear
    rw [if_neg (by simpa using hnz)]
    norm_num
  · unfold nodeRadius scaleLinear
    rw [if_neg (by simpa using hnz)]
    try simp only [sub_zero]
    rw [div_self hnz]
    norm_num

/-- Witness for the amended C3 at the spec's example graph. -/
theorem claim_C3_amended_scales_witness :
    nodeRadius exampleNodes 0 = 6 ∧ nodeRadius exampleNodes (maxCollab exampleNodes) = 22 := by
  have h := claim_C3_amended_scales ⟨exampleNodes, exampleLinks⟩ (by decide) (by decide)
  exact ⟨h.2.2.1, h.2.2.2.1⟩

/-- C9: over any loaded graph with non-negative collaboration counts and
weights at least 1, the resolved node radius is non-decreasing in
`collab_count` and the resolved link width is non-decreasing in `weight`. -/
theorem claim_C9_scales_monotone (g : Graph)
    (hc : ∀ n ∈ g.nodes, 0 ≤ n.collab_count)
    (hw : ∀ l ∈ g.links, 1 ≤ l.weight) :
    (∀ n1 ∈ g.nodes, ∀ n2 ∈ g.nodes, n1.collab_count ≤ n2.collab_count →
      nodeRadius g.nodes n1.collab_count ≤ nodeRadius g.nodes n2.collab_count) ∧
    (∀ l1 ∈ g.links, ∀ l2 ∈ g.links, l1.weight ≤ l2.weight →
      linkWidth g.links l1.weight ≤ linkWidth g.links l2.weight) := by
  constructor
  · intro n1 _ n2 _ hle
    have hpos : 0 < maxCollab g.nodes := by
      apply jsOr1_d3max_pos
      intro x hx
      obtain ⟨n, hn, rfl⟩ := List.mem_map.mp hx
      exact hc n hn
    exact scaleLinear_mono 0 (maxCollab g.nodes) 6 22 hpos.le (by norm_num) hle
  · intro l1 _ l2 _ hle
    have hge : 1 ≤ maxWeight g.links := by
      apply jsOr1_d3max_ge_one
      intro x hx
      obtain ⟨l, hl, rfl⟩ := List.mem_map.mp hx
      exact hw l hl
    exact scaleLinear_mono 1 (maxWeight g.links) (3/2) 6 hge (by norm_num) hle

/-- Witness for C9 at the spec's example graph. -/
theorem claim_C9_scales_monotone_witness :
    nodeRadius exampleNodes alanNode.collab_count ≤
      nodeRadius exampleNodes adaNode.collab_count ∧
    linkWidth exampleLinks (2 : ℚ) ≤ linkWidth exampleLinks (2 : ℚ) := by
  have h := claim_C9_scales_monotone ⟨exampleNodes, exampleLinks⟩ (by decide) (by decide)
  refine ⟨?_, ?_⟩
  · exact h.1 alanNode (by simp [exampleNodes]) adaNode (by simp [exampleNodes]) (by decide)
  · exact h.2 ⟨1, 2, 2⟩ (by simp [exampleLinks]) ⟨1, 2, 2⟩ (by simp [exampleLinks]) le_rfl

/-! ## Archetype color table (lines 11–18) and its four use sites -/

/-- The fixed object literal `ARCHETYPE_COLORS`, as a partial lookup. -/
def ARCHETYPE_COLORS (a : String) : Option String :=
  if a = "Builder" then some "#6366f1"
  else if a = "Designer" then some "#f472b6"
  else if a = "Researcher" then some "#22d3ee"
  else if a = "Communicator" then some "#facc15"
  else if a = "Strategist" then some "#34d399"
  else if a = "Unknown" then some "#94a3b8"
  else none

/-- `ARCHETYPE_COLORS[k]` where the key itself may be `undefined`. -/
def jsIndexColors : Option String → Option String
  | none => none
  | some a => ARCHETYPE_COLORS a

/-- `v || dflt` of JavaScript on strings (both `undefined` and `""` are falsy). -/
def jsOrStr : Option String → String → String
  | none, dflt => dflt
  | some s, dflt => if s = "" then dflt else s

/-- `ARCHETYPE_COLORS.Unknown`, the fallback read by every use site. -/
def unknownColor : String := "#94a3b8"

/-- Ring stroke (line 133): `ARCHETYPE_COLORS[d.archetype] || ARCHETYPE_COLORS.Unknown`. -/
def ringColor (a : Option String) : String :=
  jsOrStr (jsIndexColors a) unknownColor

/-- Body fill (line 140): `ARCHETYPE_COLORS[d.archetype] || ARCHETYPE_COLORS.Unknown`. -/
def bodyColor (a : Option String) : String :=
  jsOrStr (jsIndexColors a) unknownColor

/-- Legend dot (line 77): `ARCHETYPE_COLORS[a] || ARCHETYPE_COLORS.Unknown`. -/
def legendColor (a : Option String) : String :=
  jsOrStr (jsIndexColors a) unknownColor

/-- Sidebar badge (line 202): `ARCHETYPE_COLORS[d.archetype] || ARCHETYPE_COLORS.Unknown`. -/
def badgeColor (a : Option String) : String :=
  jsOrStr (jsIndexColors a) unknownColor

/-- C4: the ring, body, legend and badge colors of an archetype always agree;
an archetype outside the fixed table (and a missing one) gets the fallback
color `#94a3b8`; an archetype in the table gets its table entry. -/
theorem claim_C4_color_consistency (a : Option String) :
    (ringColor a = bodyColor a ∧ bodyColor a = legendColor a ∧
      legendColor a = badgeColor a) ∧
    (∀ s, a = some s → ARCHETYPE_COLORS s = none → ringColor a = "#94a3b8") ∧
    (a = none → ringColor a = "#94a3b8") ∧
    (∀ s c, a = some s → ARCHETYPE_COLORS s = some c → ringColor a = c) := by
  refine ⟨⟨rfl, rfl, rfl⟩, ?_, ?_, ?_⟩
  · intro s hs hnone
    subst hs
    simp [ringColor, jsIndexColors, jsOrStr, hnone, unknownColor]
  · intro h
    subst h
    rfl
  · intro s c hs hc
    subst hs
    have hcne : c ≠ "" := by
      revert hc
      unfold ARCHETYPE_COLORS
      split
      · intro h; injection h with h; subst h; decide
      · split
        · intro h; injection h with h; subst h; decide
        · split
          · intro h; injection h with h; subst h; decide
          · split
            · intro h; injection h with h; subst h; decide
            · split
              · intro h; injection h with h; subst h; decide
              · split
                · intro h; injection h with h; subst h; decide
                · intro h; exact absurd h (by simp)
    simp [ringColor, jsIndexColors, jsOrStr, hc, hcne]

/-- Witness for C4 at a concrete unknown and a concrete known archetype. -/
theorem claim_C4_color_consistency_witness :
    ringColor (some "Wizard") = "#94a3b8" ∧ ringColor (some "Builder") = "#6366f1" := by
  refine ⟨?_, ?_⟩
  · exact (claim_C4_color_consistency (some "Wizard")).2.1 "Wizard" rfl (by decide)
  · exact (claim_C4_color_consistency (some "Builder")).2.2.2 "Builder" "#6366f1" rfl (by decide)

/-! ## Drag handlers (lines 241–254) -/

/-- The dragged node's simulation-owned fields. -/
structure DragNode where
  x : ℚ
  y : ℚ
  fx : Option ℚ
  fy : Option ℚ
deriving Repr, DecidableEq

/-- The simulation's temperature control: the alpha decay target and whether
`restart()` has been invoked. -/
structure SimState where
  alphaTarget : ℚ
  running : Bool
deriving Repr, DecidableEq

/-- The state touched by a drag gesture: the node and the simulation. -/
structure DragCtx where
  node : DragNode
  sim : SimState
deriving Repr, DecidableEq

/-- `dragStarted(event, d)`: reheat (`alphaTarget(.3).restart()`) only when no
other gesture is active, then pin the node at its current position. -/
def dragStarted (active : Bool) (s : DragCtx) : DragCtx :=
  { node := { s.node with fx := some s.node.x, fy := some s.node.y }
    sim := if active then s.sim else { alphaTarget := 3/10, running := true } }

/-- `dragged(event, d)`: `d.fx = event.x; d.fy = event.y`. -/
def dragged (ex ey : ℚ) (s : DragCtx) : DragCtx :=
  { s with node := { s.node with fx := some ex, fy := some ey } }

/-- `dragEnded(event, d)`: restore `alphaTarget(0)` when no gesture remains
active, then clear `d.fx`/`d.fy` to null. -/
def dragEnded (active : Bool) (s : DragCtx) : DragCtx :=
  { node := { s.node with fx := none, fy := none }
    sim := if active then s.sim else { s.sim with alphaTarget := 0 } }

/-- A run of drag-move events folded over the state. -/
def runMoves (moves : List (ℚ × ℚ)) (s : DragCtx) : DragCtx :=
  moves.foldl (fun st m => dragged m.1 m.2 st) s

/-- C5: at gesture start the node is pinned at its current position and the
simulation is reheated (target 0.3, restarted) exactly when no gesture was
already active; every move re-pins at the pointer; at gesture end the target
is restored to 0 when no gesture remains active and the pin is cleared — so
after any completed start–moves–end sequence the node is unpinned. -/
theorem claim_C5_drag_lifecycle (s : DragCtx) (aStart aEnd : Bool)
    (moves : List (ℚ × ℚ)) :
    ((dragStarted aStart s).node.fx = some s.node.x ∧
      (dragStarted aStart s).node.fy = some s.node.y) ∧
    ((dragStarted aStart s).sim = if aStart then s.sim else ⟨3/10, true⟩) ∧
    (∀ (t : DragCtx) (ex ey : ℚ),
      (dragged ex ey t).node.fx = some ex ∧ (dragged ex ey t).node.fy = some ey) ∧
    (∀ t : DragCtx,
      (dragEnded aEnd t).node.fx = none ∧ (dragEnded aEnd t).node.fy = none ∧
      (dragEnded aEnd t).sim.alphaTarget =
        if aEnd then t.sim.alphaTarget else 0) ∧
    ((dragEnded aEnd (runMoves moves (dragStarted aStart s))).node.fx = none ∧
      (dragEnded aEnd (runMoves moves (dragStarted aStart s))).node.fy = none) := by
  refine ⟨⟨rfl, rfl⟩, rfl, fun t ex ey => ⟨rfl, rfl⟩, fun t => ⟨rfl, rfl, ?_⟩, rfl, rfl⟩
  by_cases h : aEnd <;> simp [dragEnded, h]

/-! ## Tooltip placement (mousemove handler, lines 174–183) -/

/-- Horizontal tooltip position: pointer x relative to the wrapper plus 16,
moved left by 220 when `x + 200` would exceed the wrapper width. -/
def tooltipX (px w : ℚ) : ℚ :=
  if px + 16 + 200 > w then px + 16 - 220 else px + 16

/-- Vertical tooltip position: pointer y relative to the wrapper plus 16,
moved up by 200 when `y + 180` would exceed the wrapper height. -/
def tooltipY (py h : ℚ) : ℚ :=
  if py + 16 + 180 > h then py + 16 - 200 else py + 16

/-- C6: for any pointer position inside the wrapper and any tooltip of width
at most 200 and height at most 180, the computed position never lets the
tooltip extend past the wrapper's right or bottom edge. -/
theorem claim_C6_tooltip_clamped (px py w h tw th : ℚ)
    (hx : px ≤ w) (hy : py ≤ h) (htw : tw ≤ 200) (hth : th ≤ 180) :
    tooltipX px w + tw ≤ w ∧ tooltipY py h + th ≤ h := by
  constructor
  · unfold tooltipX
    split <;> linarith
  · unfold tooltipY
    split <;> linarith

/-- Witness for C6 at a concrete pointer position and container size. -/
theorem claim_C6_tooltip_clamped_witness :
    tooltipX 290 300 + 200 ≤ 300 ∧ tooltipY 20 200 + 180 ≤ 200 :=
  claim_C6_tooltip_clamped 290 20 300 200 200 180 (by norm_num) (by norm_num)
    le_rfl le_rfl

/-! ## Link visual state and the unconditional dimming in `applyFilters` -/

/-- An rgba color value. -/
structure Rgba where
  r : Nat
  g : Nat
  b : Nat
  a : ℚ
deriving Repr, DecidableEq

/-- `stroke: "rgba(13, 148, 136, .35)"` set at render time (line 115). -/
def initialLinkStroke : Rgba := ⟨13, 148, 136, 35/100⟩

/-- A link line's presentation state: the stroke color, the `stroke-opacity`
attribute (unset at render time, so the default 1 applies) and the width. -/
structure LinkVis where
  stroke : Rgba
  strokeOpacityAttr : Option ℚ
  strokeWidth : ℚ
deriving Repr, DecidableEq

/-- The attributes given to a link line when first drawn (lines 112–117). -/
def initialLinkVis (links : List Link) (l : Link) : LinkVis :=
  ⟨initialLinkStroke, none, linkWidth links l.weight⟩

/-- `link.transition().duration(300).attr("stroke-opacity", .25)` at the end
of `applyFilters` (lines 288–289) — unconditional in the filter state. -/
def applyFiltersLink (_fs : FilterState) (v : LinkVis) : LinkVis :=
  { v with strokeOpacityAttr := some (25/100) }

/-- The rendered link opacity: the rgba alpha multiplied by the
`stroke-opacity` attribute (1 when the attribute is unset). -/
def effectiveLinkOpacity (v : LinkVis) : ℚ :=
  v.stroke.a * (v.strokeOpacityAttr.getD 1)

theorem foldl_applyFiltersLink (evs : List FilterState) (v : LinkVis) :
    (evs.foldl (fun v f => applyFiltersLink f v) v).stroke = v.stroke ∧
    ((evs.foldl (fun v f => applyFiltersLink f v) v).strokeOpacityAttr =
        v.strokeOpacityAttr ∨
      (evs.foldl (fun v f => applyFiltersLink f v) v).strokeOpacityAttr =
        some (25/100)) := by
  induction evs generalizing v with
  | nil => exact ⟨rfl, Or.inl rfl⟩
  | cons f fs ih =>
    have h := ih (applyFiltersLink f v)
    refine ⟨h.1, ?_⟩
    cases h.2 with
    | inl h2 => exact Or.inr h2
    | inr h2 => exact Or.inr h2

/-- C10: every `applyFilters` invocation sets every link's `stroke-opacity`
to 0.25, whatever the filter state (including all-cleared); the initially
rendered link opacity is 0.35, and after any non-empty sequence of filter
events the rendered opacity is 0.35 · 0.25 = 0.0875 ≠ 0.35, so it never
returns to its initial value. -/
theorem claim_C10_link_dimming (links : List Link) (l : Link)
    (fs : FilterState) (evs : List FilterState) :
    (∀ v : LinkVis, (applyFiltersLink fs v).strokeOpacityAttr = some (25/100)) ∧
    effectiveLinkOpacity (initialLinkVis links l) = 35/100 ∧
    effectiveLinkOpacity
      (evs.foldl (fun v f => applyFiltersLink f v)
        (applyFiltersLink fs (initialLinkVis links l))) = 7/80 ∧
    (7 : ℚ)/80 ≠ 35/100 := by
  refine ⟨fun v => rfl, by norm_num [effectiveLinkOpacity, initialLinkVis, initialLinkStroke], ?_, by norm_num⟩
  have h := foldl_applyFiltersLink evs (applyFiltersLink fs (initialLinkVis links l))
  have hop : (evs.foldl (fun v f => applyFiltersLink f v)
      (applyFiltersLink fs (initialLinkVis links l))).strokeOpacityAttr =
      some (25/100) := by
    cases h.2 with
    | inl h2 => exact h2
    | inr h2 => exact h2
  rw [effectiveLinkOpacity, hop, h.1]
  norm_num [applyFiltersLink, initialLinkVis, initialLinkStroke]

/-! ## The render entry point (lines 44–156) -/

/-- `name.split(" ")[0]`: the first space-separated token of the name. -/
def jsFirstToken (s : String) : String := ⟨s.data.takeWhile (fun c => c ≠ ' ')⟩

/-- JavaScript `Set` deduplication: keep the first occurrence of each value. -/
def uniqAux {α : Type} [DecidableEq α] (seen : List α) : List α → List α
  | [] => []
  | x :: xs => if x ∈ seen then uniqAux seen xs else x :: uniqAux (x :: seen) xs

/-- `[...new Set(l)]`. -/
def uniq {α : Type} [DecidableEq α] (l : List α) : List α := uniqAux [] l

/-- Insertion step of a stable sort by a boolean comparison. -/
def insertLe {α : Type} (le : α → α → Bool) (x : α) : List α → List α
  | [] => [x]
  | y :: ys => if le x y then x :: y :: ys else y :: insertLe le x ys

/-- `Array.prototype.sort()` modelled as insertion sort by `le`. -/
def sortLe {α : Type} (le : α → α → Bool) : List α → List α
  | [] => []
  | x :: xs => insertLe le x (sortLe le xs)

/-- The string a value displays as when interpolated (`undefined` for a
missing archetype). -/
def dispArch : Option String → String
  | none => "undefined"
  | some s => s

/-- The default lexicographic comparison `Array.prototype.sort()` applies,
on possibly-missing archetype values. -/
def optArchLe (a b : Option String) : Bool := decide (dispArch a ≤ dispArch b)

/-- The force-simulation setup (lines 105–109): link distance 100, charge
-200, centering at the viewport center, collision radius `radius + 4`. -/
structure SimSetup where
  linkDistance : ℚ
  chargeStrength : ℚ
  center : ℚ × ℚ
  collisionRadii : List ℚ
deriving Repr, DecidableEq

/-- The static attributes of one node group (lines 129–153). -/
structure NodeVis where
  ringRadius : ℚ
  ringStroke : String
  ringStrokeWidth : ℚ
  ringStrokeOpacity : ℚ
  bodyRadius : ℚ
  bodyFill : String
  bodyFillOpacity : ℚ
  label : String
  labelDy : ℚ
deriving Repr, DecidableEq

/-- A link whose endpoint ids have been resolved to node objects. -/
structure ResolvedLink where
  source : Node
  target : Node
  weight : ℚ
deriving Repr, DecidableEq

/-- The centered placeholder text appended for an empty graph (lines 48–54). -/
structure Placeholder where
  x : ℚ
  y : ℚ
  text : String
deriving Repr, DecidableEq

/-- The constructed scene: dropdown values, legend, simulation setup and the
drawn link and node elements. -/
structure Scene where
  departments : List String
  archOptions : List (Option String)
  legend : List (Option String × String)
  sim : SimSetup
  linkLines : List LinkVis
  nodeShapes : List NodeVis
  resolved : List ResolvedLink
deriving Repr, DecidableEq

/-- What `render` leaves behind: either only the placeholder text, or the
full scene. -/
inductive RenderResult where
  | empty (p : Placeholder)
  | scene (sc : Scene)
deriving Repr, DecidableEq

/-- Modelled from the spec: the id-resolution step of
`d3.forceLink(links).id(d => d.id)`.  The resolution itself lives in the d3
library, not under `src/`; per the spec a link whose `source`/`target`
matches no loaded node id is a fatal construction error ("node not found"),
never silently dropped. -/
def resolveLinks (nodes : List Node) : List Link → Except String (List ResolvedLink)
  | [] => .ok []
  | l :: ls =>
    match nodes.find? (fun n => n.id == l.source),
        nodes.find? (fun n => n.id == l.target) with
    | some s, some t => (resolveLinks nodes ls).map (fun rs => ⟨s, t, l.weight⟩ :: rs)
    | none, _ => .error ("node not found: " ++ toString l.source)
    | some _, none => .error ("node not found: " ++ toString l.target)

/-- The static attributes the renderer gives one node (lines 129–153). -/
def nodeVisOf (nodes : List Node) (d : Node) : NodeVis :=
  { ringRadius := nodeRadius nodes d.collab_count + 3
    ringStroke := ringColor d.archetype
    ringStrokeWidth := 2
    ringStrokeOpacity := 3/10
    bodyRadius := nodeRadius nodes d.collab_count
    bodyFill := bodyColor d.archetype
    bodyFillOpacity := 85/100
    label := jsFirstToken d.name
    labelDy := nodeRadius nodes d.collab_count + 14 }

/-- `render(data)` (lines 44–156): with zero nodes, append only the centered
placeholder and return; otherwise populate the dropdowns and legend, build
the scales, set up the simulation and draw links and nodes.  Link-id
resolution failure is a fatal error for the dataset. -/
def render (g : Graph) (w h : ℚ) : Except String RenderResult :=
  if g.nodes.length = 0 then
    .ok (.empty ⟨w/2, h/2, "No users found. The network is empty."⟩)
  else
    (resolveLinks g.nodes g.links).map (fun rs =>
      .scene
        { departments := sortLe (fun a b => decide (a ≤ b)) (uniq (g.nodes.map Node.department))
          archOptions := sortLe optArchLe (uniq (g.nodes.map Node.archetype))
          legend := (sortLe optArchLe (uniq (g.nodes.map Node.archetype))).map
            (fun a => (a, legendColor a))
          sim := ⟨100, -200, (w/2, h/2),
            g.nodes.map (fun d => nodeRadius g.nodes d.collab_count + 4)⟩
          linkLines := g.links.map (initialLinkVis g.links)
          nodeShapes := g.nodes.map (nodeVisOf g.nodes)
          resolved := rs })

/-- C7: a zero-node graph renders only the centered placeholder message and
never a scene (no simulation setup, no drawn elements), whatever the links
and viewport. -/
theorem claim_C7_empty_graph (links : List Link) (w h : ℚ) :
    render ⟨[], links⟩ w h =
      .ok (.empty ⟨w/2, h/2, "No users found. The network is empty."⟩) ∧
    (∀ sc : Scene, render ⟨[], links⟩ w h ≠ .ok (.scene sc)) ∧
    (∀ msg : String, render ⟨[], links⟩ w h ≠ .error msg) := by
  refine ⟨rfl, ?_, ?_⟩
  · intro sc hsc
    rw [show render ⟨[], links⟩ w h =
        .ok (.empty ⟨w/2, h/2, "No users found. The network is empty."⟩) from rfl] at hsc
    simp at hsc
  · intro msg hmsg
    rw [show render ⟨[], links⟩ w h =
        .ok (.empty ⟨w/2, h/2, "No users found. The network is empty."⟩) from rfl] at hmsg
    simp at hmsg

theorem resolveLinks_error_of_missing (nodes : List Node) (links : List Link)
    (hbad : ∃ l ∈ links, nodes.find? (fun n => n.id == l.source) = none ∨
      nodes.find? (fun n => n.id == l.target) = none) :
    ∃ msg, resolveLinks nodes links = .error msg := by
  induction links with
  | nil => exact absurd hbad (by simp)
  | cons l ls ih =>
    by_cases hl : nodes.find? (fun n => n.id == l.source) = none ∨
        nodes.find? (fun n => n.id == l.target) = none
    · unfold resolveLinks
      rcases hs : nodes.find? (fun n => n.id == l.source) with _ | s
      · rw [hs]
        exact ⟨_, rfl⟩
      · rcases ht : nodes.find? (fun n => n.id == l.target) with _ | t
        · rw [hs, ht]
          exact ⟨_, rfl⟩
        · cases hl with
          | inl h => exact absurd hs (by rw [h]; intro hh; exact Option.noConfusion hh)
          | inr h => exact absurd ht (by rw [h]; intro hh; exact Option.noConfusion hh)
    · have hbad' : ∃ l ∈ ls, nodes.find? (fun n => n.id == l.source) = none ∨
          nodes.find? (fun n => n.id == l.target) = none := by
        obtain ⟨l', hl', hcase⟩ := hbad
        rcases List.mem_cons.mp hl' with rfl | hmem
        · exact absurd hcase hl
        · exact ⟨l', hmem, hcase⟩
      obtain ⟨msg, hmsg⟩ := ih hbad'
      unfold resolveLinks
      rcases hs : nodes.find? (fun n => n.id == l.source) with _ | s
      · rw [hs]
        exact ⟨_, rfl⟩
      · rcases ht : nodes.find? (fun n => n.id == l.target) with _ | t
        · rw [hs, ht]
          exact ⟨_, rfl⟩
        · rw [hs, ht, hmsg]
          exact ⟨msg, rfl⟩

theorem resolveLinks_length (nodes : List Node) (links : List Link)
    (rs : List ResolvedLink) (h : resolveLinks nodes links = .ok rs) :
    rs.length = links.length := by
  induction links generalizing rs with
  | nil =>
    unfold resolveLinks at h
    injection h with h
    subst h
    rfl
  | cons l ls ih =>
    unfold resolveLinks at h
    rcases hs : nodes.find? (fun n => n.id == l.source) with _ | s <;> rw [hs] at h
    · exact absurd h (by intro hh; exact Except.noConfusion hh)
    · rcases ht : nodes.find? (fun n => n.id == l.target) with _ | t <;> rw [ht] at h
      · exact absurd h (by intro hh; exact Except.noConfusion hh)
      · rcases hrec : resolveLinks nodes ls with msg | rs' <;> rw [hrec] at h
        · exact absurd h (by intro hh; exact Except.noConfusion hh)
        · injection h with h
          subst h
          simp [ih rs' hrec]

/-- C8: when a loaded non-empty graph contains a link whose source or target
id matches no node, constructing the layout fails fast with an error —
`render` produces no scene — and resolution never silently drops a link:
a successful resolution has exactly one resolved link per input link. -/
theorem claim_C8_malformed_link_fatal (g : Graph) (w h : ℚ)
    (hne : g.nodes ≠ [])
    (hbad : ∃ l ∈ g.links, g.nodes.find? (fun n => n.id == l.source) = none ∨
      g.nodes.find? (fun n => n.id == l.target) = none) :
    (∃ msg, render g w h = .error msg) ∧
    (∀ res : RenderResult, render g w h ≠ .ok res) ∧
    (∀ rs : List ResolvedLink,
      resolveLinks g.nodes g.links = .ok rs → rs.length = g.links.length) := by
  obtain ⟨msg, hmsg⟩ := resolveLinks_error_of_missing g.nodes g.links hbad
  have hlen : g.nodes.length ≠ 0 := by
    intro h0
    exact hne (List.length_eq_zero.mp h0)
  have hr : render g w h = .error msg := by
    unfold render
    rw [if_neg hlen, hmsg]
    rfl
  refine ⟨⟨msg, hr⟩, ?_, fun rs hrs => resolveLinks_length g.nodes g.links rs hrs⟩
  intro res hres
  rw [hr] at hres
  exact Except.noConfusion hres

/-- Witness for C8: a one-node graph with a link whose target id 99 matches
no node. -/
theorem claim_C8_malformed_link_fatal_witness :
    ∃ msg, render ⟨[⟨1, "Ada Lovelace", "Engineering", some "Builder", ["Python"], 1, 5⟩],
      [⟨1, 99, 2⟩]⟩ 800 600 = .error msg := by
  refine (claim_C8_malformed_link_fatal _ 800 600 (by simp) ?_).1
  exact ⟨⟨1, 99, 2⟩, by simp, Or.inr rfl⟩

end Nest
